import Mathlib

/-!
Shallow embedding of the device-selection, swapchain-configuration and
per-frame synchronization logic of the playground Vulkan renderer
(src/src/application.cc, src/src/device.cc, src/src/swap_chain.cc), with
theorems about the selection algorithms, the swapchain invariants and the
frame-loop fence protocol.

Machine integers of the source are modelled as Nat with explicit wrap
(mod 2 ^ 32) where the source can overflow; functions of the source that
index element 0 of a possibly empty vector are modelled as Option-valued,
with none standing for the out-of-bounds access; functions that throw
return Except.  Vulkan enumerants that the code compares against are
modelled as inductive constructors carrying the Vulkan names; opaque
Vulkan handles are modelled as Nat.
-/

namespace Playground

/-- VkResult values distinguished by the frame loop (application.cc DrawFrame). -/
inductive VkResult where
  | VK_SUCCESS
  | VK_SUBOPTIMAL_KHR
  | VK_ERROR_OUT_OF_DATE_KHR
  | VK_ERROR_DEVICE_LOST
deriving DecidableEq, Repr

/-- Present modes compared against in ChooseSwapPresentMode. -/
inductive VkPresentModeKHR where
  | VK_PRESENT_MODE_IMMEDIATE_KHR
  | VK_PRESENT_MODE_MAILBOX_KHR
  | VK_PRESENT_MODE_FIFO_KHR
  | VK_PRESENT_MODE_FIFO_RELAXED_KHR
deriving DecidableEq, Repr

/-- Surface formats compared against in the two surface-format choosers:
application.cc:2163 compares with VK_FORMAT_B8G8R8A8_UNORM, while
swap_chain.cc:221 and device.cc:599 compare with VK_FORMAT_B8G8R8_SRGB
(a three-channel BGR format, no alpha). -/
inductive VkFormat where
  | VK_FORMAT_B8G8R8_SRGB
  | VK_FORMAT_B8G8R8A8_UNORM
  | VK_FORMAT_B8G8R8A8_SRGB
  | VK_FORMAT_R8G8B8A8_UNORM
  | VK_FORMAT_R8G8B8A8_SRGB
deriving DecidableEq, Repr

inductive VkColorSpaceKHR where
  | VK_COLOR_SPACE_SRGB_NONLINEAR_KHR
  | VK_COLOR_SPACE_DISPLAY_P3_NONLINEAR_EXT
deriving DecidableEq, Repr

structure VkSurfaceFormatKHR where
  format : VkFormat
  colorSpace : VkColorSpaceKHR
deriving DecidableEq, Repr

structure VkExtent2D where
  width : Nat
  height : Nat
deriving DecidableEq, Repr

/-- The fields of VkSurfaceCapabilitiesKHR that the code reads. -/
structure VkSurfaceCapabilitiesKHR where
  minImageCount : Nat
  maxImageCount : Nat
  currentExtent : VkExtent2D
  minImageExtent : VkExtent2D
  maxImageExtent : VkExtent2D
deriving DecidableEq, Repr

/-- std::numeric_limits of uint32_t max, the Vulkan sentinel for an undefined
current extent (swap_chain.cc:198, application.cc:2186). -/
def UINT32_MAX : Nat := 4294967295

/-- Modulus of uint32_t arithmetic. -/
def UINT32_MOD : Nat := 4294967296

/-- std::clamp(v, lo, hi): lo if v < lo, hi if hi < v, otherwise v. -/
def stdClamp (v lo hi : Nat) : Nat :=
  if v < lo then lo else if hi < v then hi else v

namespace SwapChain

/-- SwapChain::ChooseSwapSufaceFormat (swap_chain.cc:218-228): first entry
with format VK_FORMAT_B8G8R8_SRGB and color space
VK_COLOR_SPACE_SRGB_NONLINEAR_KHR, otherwise available_formats[0].
The fallback indexes element 0 unconditionally, hence Option: none models
the out-of-bounds access on an empty vector. -/
def ChooseSwapSufaceFormat (available_formats : List VkSurfaceFormatKHR) :
    Option VkSurfaceFormatKHR :=
  match available_formats.find? (fun a =>
      a.format == VkFormat.VK_FORMAT_B8G8R8_SRGB &&
      a.colorSpace == VkColorSpaceKHR.VK_COLOR_SPACE_SRGB_NONLINEAR_KHR) with
  | some a => some a
  | none => available_formats.head?

/-- SwapChain::ChooseSwapPresentMode (swap_chain.cc:230-241): mailbox if it
appears in the list, otherwise available_modes[0] (not a FIFO constant);
none models the out-of-bounds access on an empty vector. -/
def ChooseSwapPresentMode (available_modes : List VkPresentModeKHR) :
    Option VkPresentModeKHR :=
  match available_modes.find? (fun a =>
      a == VkPresentModeKHR.VK_PRESENT_MODE_MAILBOX_KHR) with
  | some a => some a
  | none => available_modes.head?

/-- SwapChain::ChooseSwapExtent (swap_chain.cc:195-216): the surface
current extent verbatim unless its width is the UINT32_MAX sentinel, in
which case the framebuffer size (already cast to uint32) is clamped per
dimension into [minImageExtent, maxImageExtent]. -/
def ChooseSwapExtent (capabilities : VkSurfaceCapabilitiesKHR)
    (fbWidth fbHeight : Nat) : VkExtent2D :=
  if capabilities.currentExtent.width ≠ UINT32_MAX then
    capabilities.currentExtent
  else
    { width := stdClamp fbWidth capabilities.minImageExtent.width
        capabilities.maxImageExtent.width,
      height := stdClamp fbHeight capabilities.minImageExtent.height
        capabilities.maxImageExtent.height }

end SwapChain

namespace Application

/-- Application::ChooseSwapSurfaceFormat (application.cc:2160-2170): first
entry with format VK_FORMAT_B8G8R8A8_UNORM and color space
VK_COLOR_SPACE_SRGB_NONLINEAR_KHR, otherwise available_formats[0]
(none models the out-of-bounds access on an empty vector). -/
def ChooseSwapSurfaceFormat (available_formats : List VkSurfaceFormatKHR) :
    Option VkSurfaceFormatKHR :=
  match available_formats.find? (fun a =>
      a.format == VkFormat.VK_FORMAT_B8G8R8A8_UNORM &&
      a.colorSpace == VkColorSpaceKHR.VK_COLOR_SPACE_SRGB_NONLINEAR_KHR) with
  | some a => some a
  | none => available_formats.head?

/-- Application::ChooseSwapPresentMode (application.cc:2172-2181): mailbox
if it appears in the list, otherwise the constant VK_PRESENT_MODE_FIFO_KHR;
total, no indexing. -/
def ChooseSwapPresentMode (available_present_modes : List VkPresentModeKHR) :
    VkPresentModeKHR :=
  match available_present_modes.find? (fun a =>
      a == VkPresentModeKHR.VK_PRESENT_MODE_MAILBOX_KHR) with
  | some a => a
  | none => VkPresentModeKHR.VK_PRESENT_MODE_FIFO_KHR

/-- Application::ChooseSwapExtent (application.cc:2183-2203); the body is
identical to SwapChain::ChooseSwapExtent. -/
def ChooseSwapExtent (capabilities : VkSurfaceCapabilitiesKHR)
    (fbWidth fbHeight : Nat) : VkExtent2D :=
  if capabilities.currentExtent.width ≠ UINT32_MAX then
    capabilities.currentExtent
  else
    { width := stdClamp fbWidth capabilities.minImageExtent.width
        capabilities.maxImageExtent.width,
      height := stdClamp fbHeight capabilities.minImageExtent.height
        capabilities.maxImageExtent.height }

/-- The requested swapchain image count, from Application::CreateSwapChain
(application.cc:1288-1292); SwapChain::CreateSwapChain (swap_chain.cc:49-54)
computes the same value.  minImageCount is uint32_t, so the + 1 wraps. -/
def SwapChainImageCount (capabilities : VkSurfaceCapabilitiesKHR) : Nat :=
  let image_count := (capabilities.minImageCount + 1) % UINT32_MOD
  if capabilities.maxImageCount > 0 && image_count > capabilities.maxImageCount
  then capabilities.maxImageCount
  else image_count

end Application

/-- The fields of one VkQueueFamilyProperties entry that the queue-family
search reads, together with the per-family result of
vkGetPhysicalDeviceSurfaceSupportKHR for the surface in use. -/
structure VkQueueFamilyProperties where
  queueCount : Nat
  graphicsBit : Bool
  presentSupport : Bool
deriving DecidableEq, Repr

/-- struct QueueFamilies (application.h:52-57, device.h). -/
structure QueueFamilies where
  graphics_family : Option Nat
  present_family : Option Nat
deriving DecidableEq, Repr

/-- QueueFamilies::IsCompleted (application.cc:950-952). -/
def QueueFamilies.IsCompleted (q : QueueFamilies) : Bool :=
  q.graphics_family.isSome && q.present_family.isSome

/-- QueueFamilies::IsComplete (device.cc:31-33), same body. -/
def QueueFamilies.IsComplete (q : QueueFamilies) : Bool :=
  q.graphics_family.isSome && q.present_family.isSome

/-- One iteration block of the queue-family loop shared by
Application::FindQueueFaimilies (application.cc:2108-2123) and
Device::FindQueueFaimilies (device.cc:490-508): record the index as
graphics family if the family has queues and the graphics bit, record it
as present family if it has queues and surface support, and break out of
the loop as soon as both are found. -/
def findQueueFamiliesLoop (i : Nat) (acc : QueueFamilies) :
    List VkQueueFamilyProperties → QueueFamilies
  | [] => acc
  | q :: rest =>
    let acc1 := if q.queueCount > 0 && q.graphicsBit then
        { acc with graphics_family := some i } else acc
    let acc2 := if q.queueCount > 0 && q.presentSupport then
        { acc1 with present_family := some i } else acc1
    if acc2.IsCompleted then acc2 else findQueueFamiliesLoop (i + 1) acc2 rest

/-- Application::FindQueueFaimilies / Device::FindQueueFaimilies applied to
the queue-family properties the device reports. -/
def FindQueueFaimilies (queue_families : List VkQueueFamilyProperties) :
    QueueFamilies :=
  findQueueFamiliesLoop 0 ⟨none, none⟩ queue_families

inductive VkPhysicalDeviceType where
  | VK_PHYSICAL_DEVICE_TYPE_DISCRETE_GPU
  | VK_PHYSICAL_DEVICE_TYPE_INTEGRATED_GPU
  | VK_PHYSICAL_DEVICE_TYPE_CPU
deriving DecidableEq, Repr

/-- Everything the device-selection code queries about one physical device
through the Vulkan API: properties, features, queue families, the device
extension list, and the swapchain support for the surface in use. -/
structure VkPhysicalDeviceInfo where
  deviceType : VkPhysicalDeviceType
  maxImageDimension2D : Nat
  geometryShader : Bool
  queue_families : List VkQueueFamilyProperties
  availableExtensions : List String
  capabilities : VkSurfaceCapabilitiesKHR
  formats : List VkSurfaceFormatKHR
  present_modes : List VkPresentModeKHR
deriving DecidableEq, Repr

/-- struct SwapChainSupportDetails (application.h:59-65, device.h). -/
structure SwapChainSupportDetails where
  capabilities : VkSurfaceCapabilitiesKHR
  formats : List VkSurfaceFormatKHR
  present_modes : List VkPresentModeKHR
deriving DecidableEq, Repr

/-- Application::QuerySwapChainSupoort / Device::QuerySwapChainSupport:
packs the surface queries for a device into SwapChainSupportDetails. -/
def QuerySwapChainSupport (d : VkPhysicalDeviceInfo) : SwapChainSupportDetails :=
  ⟨d.capabilities, d.formats, d.present_modes⟩

/-- The fatal errors of device selection, in place of the thrown
std::runtime_error messages. -/
inductive VulkanError where
  | noVulkanGPU
  | noSuitableGPU
  | unsupportedDeviceExtension
deriving DecidableEq, Repr

/-- VK_KHR_SWAPCHAIN_EXTENSION_NAME, the required device extension pushed in
Application::EvaluateDevice (application.cc:2045) on the non-Apple path. -/
def requiredDeviceExtensions : List String := ["VK_KHR_swapchain"]

namespace Application

/-- SwapChainSupportDetails::IsAdequate of the application iteration
(application.cc:954-957): also requires a positive minImageCount. -/
def IsAdequate (details : SwapChainSupportDetails) : Bool :=
  details.capabilities.minImageCount > 0 && !details.formats.isEmpty &&
    !details.present_modes.isEmpty

/-- Application::CheckExtensionSupport (application.cc:2221-2232): every
required name must occur among the available extension names. -/
def CheckExtensionSupport (available_extensions required_extensions :
    List String) : Bool :=
  required_extensions.all (fun r => available_extensions.contains r)

/-- Application::EvaluateDevice (application.cc:2018-2073): 1000 for a
discrete GPU plus the max 2D image dimension; the score is overwritten
with 1 (not 0) when the geometry-shader feature is absent, and with 0 when
the queue families are incomplete, the swapchain extension is missing, or
the swapchain support is inadequate. -/
def EvaluateDevice (d : VkPhysicalDeviceInfo) : Int :=
  let score : Int :=
    (if d.deviceType == VkPhysicalDeviceType.VK_PHYSICAL_DEVICE_TYPE_DISCRETE_GPU
     then 1000 else 0) + d.maxImageDimension2D
  let score := if !d.geometryShader then 1 else score
  let score := if !(FindQueueFaimilies d.queue_families).IsCompleted then 0 else score
  let score := if !(CheckExtensionSupport d.availableExtensions
      requiredDeviceExtensions) then 0 else score
  let score := if !(IsAdequate (QuerySwapChainSupport d)) then 0 else score
  score

/-- The multimap of Application::PickPhysicalDevice (application.cc:1199-1207):
rbegin() is the entry of maximal score, the last inserted one among ties. -/
def bestByScore (d : VkPhysicalDeviceInfo) (rest : List VkPhysicalDeviceInfo) :
    VkPhysicalDeviceInfo :=
  rest.foldl (fun acc d2 =>
    if EvaluateDevice acc ≤ EvaluateDevice d2 then d2 else acc) d

/-- Application::PickPhysicalDevice (application.cc:1188-1213): throws when
no device exists; otherwise assigns the best-scoring device only when its
score is positive and throws when the handle stays null. -/
def PickPhysicalDevice (devices : List VkPhysicalDeviceInfo) :
    Except VulkanError VkPhysicalDeviceInfo :=
  match devices with
  | [] => Except.error VulkanError.noVulkanGPU
  | d :: rest =>
    if 0 < EvaluateDevice (bestByScore d rest) then
      Except.ok (bestByScore d rest)
    else
      Except.error VulkanError.noSuitableGPU

end Application

namespace Device

/-- SwapChainSupportDetails::IsAdequate of the refactored iteration
(device.cc:35-37): non-empty formats and non-empty present modes. -/
def IsAdequate (details : SwapChainSupportDetails) : Bool :=
  !details.formats.isEmpty && !details.present_modes.isEmpty

/-- Device::RateDeviceSuitability (device.cc:457-479): overwrites the score
with 1 (not 0) when the geometry-shader feature is absent; performs no
queue-family, extension or swapchain checks. -/
def RateDeviceSuitability (d : VkPhysicalDeviceInfo) : Int :=
  let score : Int :=
    (if d.deviceType == VkPhysicalDeviceType.VK_PHYSICAL_DEVICE_TYPE_DISCRETE_GPU
     then 1000 else 0) + d.maxImageDimension2D
  if !d.geometryShader then 1 else score

/-- Device::CheckDeviceExtensionSupport (device.cc:513-545): throws when a
required extension is missing, otherwise returns that the remaining
required set is empty (true). -/
def CheckDeviceExtensionSupport (device_extensions : List String)
    (d : VkPhysicalDeviceInfo) : Except VulkanError Bool :=
  let remaining := device_extensions.filter
    (fun e => !(d.availableExtensions.contains e))
  if !remaining.isEmpty then Except.error VulkanError.unsupportedDeviceExtension
  else Except.ok remaining.isEmpty

/-- Device::IsDeviceSuitable (device.cc:436-455): complete queue families,
supported device extensions and adequate swapchain support. -/
def IsDeviceSuitable (device_extensions : List String)
    (d : VkPhysicalDeviceInfo) : Except VulkanError Bool :=
  (CheckDeviceExtensionSupport device_extensions d).map (fun ext_ok =>
    (FindQueueFaimilies d.queue_families).IsComplete && ext_ok &&
      IsAdequate (QuerySwapChainSupport d))

/-- The selection loop of Device::PickPhysicalDevice (device.cc:148-153):
the first suitable device wins. -/
def pickLoop (device_extensions : List String) :
    List VkPhysicalDeviceInfo → Except VulkanError (Option VkPhysicalDeviceInfo)
  | [] => Except.ok none
  | d :: rest =>
    match IsDeviceSuitable device_extensions d with
    | Except.error e => Except.error e
    | Except.ok true => Except.ok (some d)
    | Except.ok false => pickLoop device_extensions rest

/-- Device::PickPhysicalDevice (device.cc:137-174): throws when no device
exists, scans for the first suitable device, throws when none is found. -/
def PickPhysicalDevice (device_extensions : List String)
    (devices : List VkPhysicalDeviceInfo) :
    Except VulkanError VkPhysicalDeviceInfo :=
  match devices with
  | [] => Except.error VulkanError.noVulkanGPU
  | _ :: _ =>
    match pickLoop device_extensions devices with
    | Except.error e => Except.error e
    | Except.ok (some d) => Except.ok d
    | Except.ok none => Except.error VulkanError.noSuitableGPU

end Device

/-- Opaque Vulkan handles. -/
def VkImage : Type := Nat

def VkImageView : Type := Nat

def VkFramebuffer : Type := Nat

/-- The environment of the swapchain lifecycle: what
vkGetSwapchainImagesKHR returns for the fresh swapchain, and the handles
vkCreateImageView and vkCreateFramebuffer hand back for each input. -/
structure RenderEnv where
  swapchainImages : List VkImage
  mkImageView : VkImage → VkImageView
  mkFramebuffer : VkImageView → VkFramebuffer

/-- The three handle vectors of Application that the swapchain lifecycle
resizes (application.h:180-191). -/
structure AppSwapChainState where
  swap_chain_images : List VkImage
  swap_chain_image_views : List VkImageView
  swap_chain_framebuffers : List VkFramebuffer

namespace Application

/-- Application::CreateSwapChain (application.cc:1278-1337), reduced to its
effect on the image vector: it is resized to what
vkGetSwapchainImagesKHR reports and filled with those handles. -/
def CreateSwapChain (env : RenderEnv) (st : AppSwapChainState) :
    AppSwapChainState :=
  { st with swap_chain_images := env.swapchainImages }

/-- Application::CreateImageViews (application.cc:1339-1364): the view
vector is resized to the image count and entry i is the view created for
image i. -/
def CreateImageViews (env : RenderEnv) (st : AppSwapChainState) :
    AppSwapChainState :=
  { st with swap_chain_image_views :=
      st.swap_chain_images.map env.mkImageView }

/-- Application::CreateFrameBuffers (application.cc:1366-1387): the
framebuffer vector is resized to the view count and entry i is the
framebuffer created over view i. -/
def CreateFrameBuffers (env : RenderEnv) (st : AppSwapChainState) :
    AppSwapChainState :=
  { st with swap_chain_framebuffers :=
      st.swap_chain_image_views.map env.mkFramebuffer }

/-- Application::CleanupSwapChain (application.cc:1832-1842): destroys the
handles; the vectors themselves are left as they are and are resized by
the subsequent Create calls. -/
def CleanupSwapChain (st : AppSwapChainState) : AppSwapChainState := st

/-- Application::RecreateSwapChain (application.cc:1814-1830): after the
device idles, cleanup then CreateSwapChain, CreateImageViews,
CreateFrameBuffers in that order. -/
def RecreateSwapChain (env : RenderEnv) (st : AppSwapChainState) :
    AppSwapChainState :=
  CreateFrameBuffers env (CreateImageViews env (CreateSwapChain env
    (CleanupSwapChain st)))

end Application

/-- MAX_FRAMES_IN_FLIGHT (application.h:36). -/
def MAX_FRAMES_IN_FLIGHT : Nat := 2

namespace Application

/-- The observable calls of one Application::DrawFrame iteration
(application.cc:1844-1936), in program order. -/
inductive FrameAct where
  | waitFence (slot : Nat)
  | acquireNextImage (slot : Nat)
  | recreateSwapChain
  | resetFence (slot : Nat)
  | resetCommandBuffer (slot : Nat)
  | recordCommandBuffer (slot : Nat) (imageIndex : Nat)
  | queueSubmit (slot : Nat)
  | queuePresent (imageIndex : Nat)
deriving DecidableEq, Repr

/-- The results the Vulkan calls of one DrawFrame iteration return. -/
structure DrawEnv where
  acquireResult : VkResult
  imageIndex : Nat
  submitResult : VkResult
  presentResult : VkResult
deriving DecidableEq, Repr

/-- The per-frame state DrawFrame touches: the round-robin slot index, the
signaled state of the in-flight fences, the out-of-band resize flag, and a
counter of RecreateSwapChain calls. -/
structure DrawState where
  current_frame : Nat
  fenceSignaled : List Bool
  framebuffer_resized : Bool
  recreations : Nat
deriving DecidableEq, Repr

/-- Application::DrawFrame (application.cc:1844-1936) as a pure transition:
the list of Vulkan calls it performs, and the resulting state or the
thrown error.  The fence wait at entry blocks until the fence of the
current slot is signaled and does not change it; the VK_ERROR_OUT_OF_DATE_KHR
acquire path recreates the swapchain and returns before the fence reset,
the command-buffer reset and the recording; on the submit path the fence
of the current slot is reset to unsignaled and the slot advances
(current_frame + 1) mod MAX_FRAMES_IN_FLIGHT at the end. -/
def DrawFrame (env : DrawEnv) (st : DrawState) :
    List FrameAct × Except VulkanError DrawState :=
  let cf := st.current_frame
  let acts := [FrameAct.waitFence cf, FrameAct.acquireNextImage cf]
  if env.acquireResult == VkResult.VK_ERROR_OUT_OF_DATE_KHR then
    (acts ++ [FrameAct.recreateSwapChain],
     Except.ok { st with recreations := st.recreations + 1 })
  else if env.acquireResult != VkResult.VK_SUCCESS &&
      env.acquireResult != VkResult.VK_SUBOPTIMAL_KHR then
    (acts, Except.error VulkanError.noSuitableGPU)
  else
    let st1 := { st with fenceSignaled := st.fenceSignaled.set cf false }
    let acts := acts ++ [FrameAct.resetFence cf, FrameAct.resetCommandBuffer cf,
      FrameAct.recordCommandBuffer cf env.imageIndex, FrameAct.queueSubmit cf]
    if env.submitResult != VkResult.VK_SUCCESS then
      (acts, Except.error VulkanError.noSuitableGPU)
    else
      let acts := acts ++ [FrameAct.queuePresent env.imageIndex]
      if env.presentResult == VkResult.VK_ERROR_OUT_OF_DATE_KHR ||
          env.presentResult == VkResult.VK_SUBOPTIMAL_KHR ||
          st.framebuffer_resized then
        (acts, Except.ok { st1 with
          recreations := st1.recreations + 1,
          current_frame := (cf + 1) % MAX_FRAMES_IN_FLIGHT })
      else if env.presentResult != VkResult.VK_SUCCESS then
        (acts, Except.error VulkanError.noSuitableGPU)
      else
        (acts, Except.ok { st1 with
          current_frame := (cf + 1) % MAX_FRAMES_IN_FLIGHT })

end Application

namespace FrameSync

/-- The CPU/GPU synchronization state of the frame loop: how many frames
the CPU has submitted (frame j ran on slot j % MAX_FRAMES_IN_FLIGHT, and
current_frame = submitted % MAX_FRAMES_IN_FLIGHT), how many of those
submissions the GPU has completed (in submission order, as fence signals
on one queue observe), and the signaled state of each in-flight fence. -/
structure SyncState where
  submitted : Nat
  completed : Nat
  fenceSignaled : Nat → Bool

/-- Pointwise fence update. -/
def setFence (f : Nat → Bool) (i : Nat) (b : Bool) : Nat → Bool :=
  fun j => if j = i then b else f j

/-- CreateSyncObjects (application.cc:1721-1750) creates every in-flight
fence with VK_FENCE_CREATE_SIGNALED_BIT, so all fences start signaled. -/
def initialSyncState : SyncState :=
  { submitted := 0, completed := 0, fenceSignaled := fun _ => true }

/-- The interleaving of the frame loop with the GPU:
gpuComplete — the GPU finishes the oldest pending submission and signals
the fence that vkQueueSubmit passed with it (application.cc:1906-1907),
the fence of slot completed % MAX_FRAMES_IN_FLIGHT;
cpuFrame — one DrawFrame submit path runs: vkWaitForFences returns, which
requires the fence of the current slot submitted % MAX_FRAMES_IN_FLIGHT
to be signaled (application.cc:1846-1847), then vkResetFences resets it to
unsignaled (application.cc:1879), the command buffer is re-recorded and
submitted, and current_frame advances (application.cc:1935). -/
inductive SyncStep : SyncState → SyncState → Prop where
  | gpuComplete (s : SyncState) (h : s.completed < s.submitted) :
      SyncStep s
        { submitted := s.submitted, completed := s.completed + 1,
          fenceSignaled := setFence s.fenceSignaled
            (s.completed % MAX_FRAMES_IN_FLIGHT) true }
  | cpuFrame (s : SyncState)
      (h : s.fenceSignaled (s.submitted % MAX_FRAMES_IN_FLIGHT) = true) :
      SyncStep s
        { submitted := s.submitted + 1, completed := s.completed,
          fenceSignaled := setFence s.fenceSignaled
            (s.submitted % MAX_FRAMES_IN_FLIGHT) false }

/-- States the frame loop can reach from program start. -/
inductive SyncReachable : SyncState → Prop where
  | init : SyncReachable initialSyncState
  | step {s t : SyncState} : SyncReachable s → SyncStep s t → SyncReachable t

/-- The inductive invariant: completion never passes submission, the CPU is
at most MAX_FRAMES_IN_FLIGHT submissions ahead, and a fence is signaled
exactly when no pending submission ran on its slot. -/
def SyncInv (s : SyncState) : Prop :=
  s.completed ≤ s.submitted ∧
  s.submitted ≤ s.completed + MAX_FRAMES_IN_FLIGHT ∧
  ∀ i, i < MAX_FRAMES_IN_FLIGHT →
    (s.fenceSignaled i = true ↔
      ∀ j, s.completed ≤ j → j < s.submitted →
        j % MAX_FRAMES_IN_FLIGHT ≠ i)

end FrameSync

/-- An 8-bit-per-channel BGRA surface format paired with the standard sRGB
non-linear color space. -/
def fmtBGRA8_UNORM : VkSurfaceFormatKHR :=
  ⟨VkFormat.VK_FORMAT_B8G8R8A8_UNORM,
   VkColorSpaceKHR.VK_COLOR_SPACE_SRGB_NONLINEAR_KHR⟩

/-- The three-channel BGR sRGB format that swap_chain.cc:221 and
device.cc:599 actually prefer; it has no alpha channel. -/
def fmtBGR8_SRGB : VkSurfaceFormatKHR :=
  ⟨VkFormat.VK_FORMAT_B8G8R8_SRGB,
   VkColorSpaceKHR.VK_COLOR_SPACE_SRGB_NONLINEAR_KHR⟩

/-- Surface capabilities with a defined current extent. -/
def sampleCapabilities : VkSurfaceCapabilitiesKHR :=
  ⟨2, 8, ⟨800, 600⟩, ⟨1, 1⟩, ⟨4096, 4096⟩⟩

/-- Surface capabilities whose maxImageCount cap binds:
minImageCount + 1 = 4 exceeds maxImageCount = 3. -/
def cappedCapabilities : VkSurfaceCapabilitiesKHR :=
  ⟨3, 3, ⟨800, 600⟩, ⟨1, 1⟩, ⟨4096, 4096⟩⟩

/-- A queue family with queues, graphics capability and surface support. -/
def universalQueueFamily : VkQueueFamilyProperties := ⟨1, true, true⟩

/-- A discrete GPU lacking only the geometry-shader feature: complete
queue-family pair, swapchain extension present, adequate swapchain
support. -/
def gpuNoGeometry : VkPhysicalDeviceInfo :=
  { deviceType := VkPhysicalDeviceType.VK_PHYSICAL_DEVICE_TYPE_DISCRETE_GPU,
    maxImageDimension2D := 4096,
    geometryShader := false,
    queue_families := [universalQueueFamily],
    availableExtensions := requiredDeviceExtensions,
    capabilities := sampleCapabilities,
    formats := [fmtBGRA8_UNORM],
    present_modes := [VkPresentModeKHR.VK_PRESENT_MODE_FIFO_KHR] }

/-- A device whose only queue family lacks the graphics bit, everything
else being in order. -/
def gpuNoGraphicsQueue : VkPhysicalDeviceInfo :=
  { gpuNoGeometry with
    geometryShader := true,
    queue_families := [⟨1, false, true⟩] }

/-- A fully suitable device. -/
def gpuSuitable : VkPhysicalDeviceInfo :=
  { gpuNoGeometry with geometryShader := true }

namespace Application

/-- A DrawFrame environment whose acquire call reports the swapchain is
out of date. -/
def outOfDateEnv : DrawEnv :=
  ⟨VkResult.VK_ERROR_OUT_OF_DATE_KHR, 0, VkResult.VK_SUCCESS,
   VkResult.VK_SUCCESS⟩

/-- A DrawFrame environment where every call succeeds. -/
def allSuccessEnv : DrawEnv :=
  ⟨VkResult.VK_SUCCESS, 0, VkResult.VK_SUCCESS, VkResult.VK_SUCCESS⟩

/-- A fresh frame-loop state: slot 0 current, both fences signaled. -/
def sampleDrawState : DrawState := ⟨0, [true, true], false, 0⟩

end Application

/-! Helper lemmas. -/

/-- If mailbox occurs in the list, the search of either chooser finds it. -/
theorem find_mailbox_of_mem (modes : List VkPresentModeKHR)
    (h : VkPresentModeKHR.VK_PRESENT_MODE_MAILBOX_KHR ∈ modes) :
    modes.find? (fun a =>
        a == VkPresentModeKHR.VK_PRESENT_MODE_MAILBOX_KHR) =
      some VkPresentModeKHR.VK_PRESENT_MODE_MAILBOX_KHR := by
  cases hf : modes.find? (fun a =>
      a == VkPresentModeKHR.VK_PRESENT_MODE_MAILBOX_KHR) with
  | none =>
      rw [List.find?_eq_none] at hf
      exact absurd (by simp) (hf _ h)
  | some a =>
      have ha := List.find?_some hf
      simp only [beq_iff_eq] at ha
      rw [ha]

/-- If mailbox does not occur, the search of either chooser fails. -/
theorem find_mailbox_of_not_mem (modes : List VkPresentModeKHR)
    (h : VkPresentModeKHR.VK_PRESENT_MODE_MAILBOX_KHR ∉ modes) :
    modes.find? (fun a =>
        a == VkPresentModeKHR.VK_PRESENT_MODE_MAILBOX_KHR) = none := by
  rw [List.find?_eq_none]
  intro x hx hbeq
  rw [beq_iff_eq] at hbeq
  exact h (hbeq ▸ hx)

/-- Claim C4 (amended): both present-mode choosers return MAILBOX whenever
it appears anywhere in the list; otherwise Application::ChooseSwapPresentMode
returns the constant FIFO while SwapChain::ChooseSwapPresentMode returns
the first listed mode, which is FIFO only when FIFO is listed first; on
[FIFO] both return FIFO and on [FIFO, MAILBOX] both return MAILBOX. -/
theorem choose_swap_present_mode_spec : ∀ modes : List VkPresentModeKHR,
    (VkPresentModeKHR.VK_PRESENT_MODE_MAILBOX_KHR ∈ modes →
      SwapChain.ChooseSwapPresentMode modes =
        some VkPresentModeKHR.VK_PRESENT_MODE_MAILBOX_KHR ∧
      Application.ChooseSwapPresentMode modes =
        VkPresentModeKHR.VK_PRESENT_MODE_MAILBOX_KHR) ∧
    (VkPresentModeKHR.VK_PRESENT_MODE_MAILBOX_KHR ∉ modes →
      SwapChain.ChooseSwapPresentMode modes = modes.head? ∧
      Application.ChooseSwapPresentMode modes =
        VkPresentModeKHR.VK_PRESENT_MODE_FIFO_KHR) ∧
    (SwapChain.ChooseSwapPresentMode
        [VkPresentModeKHR.VK_PRESENT_MODE_FIFO_KHR] =
      some VkPresentModeKHR.VK_PRESENT_MODE_FIFO_KHR ∧
     Application.ChooseSwapPresentMode
        [VkPresentModeKHR.VK_PRESENT_MODE_FIFO_KHR] =
      VkPresentModeKHR.VK_PRESENT_MODE_FIFO_KHR ∧
     SwapChain.ChooseSwapPresentMode
        [VkPresentModeKHR.VK_PRESENT_MODE_FIFO_KHR,
         VkPresentModeKHR.VK_PRESENT_MODE_MAILBOX_KHR] =
      some VkPresentModeKHR.VK_PRESENT_MODE_MAILBOX_KHR ∧
     Application.ChooseSwapPresentMode
        [VkPresentModeKHR.VK_PRESENT_MODE_FIFO_KHR,
         VkPresentModeKHR.VK_PRESENT_MODE_MAILBOX_KHR] =
      VkPresentModeKHR.VK_PRESENT_MODE_MAILBOX_KHR) := by
  intro modes
  refine ⟨?_, ?_, by decide⟩
  · intro h
    have hf := find_mailbox_of_mem modes h
    constructor
    · simp only [SwapChain.ChooseSwapPresentMode, hf]
    · simp only [Application.ChooseSwapPresentMode, hf]
  · intro h
    have hf := find_mailbox_of_not_mem modes h
    constructor
    · simp only [SwapChain.ChooseSwapPresentMode, hf]
    · simp only [Application.ChooseSwapPresentMode, hf]

/-- Claim C4 witness: the amended theorem evaluated on the two scenario
lists and on a mailbox-free list headed by IMMEDIATE. -/
theorem choose_swap_present_mode_spec_witness :
    SwapChain.ChooseSwapPresentMode
        [VkPresentModeKHR.VK_PRESENT_MODE_IMMEDIATE_KHR] =
      some VkPresentModeKHR.VK_PRESENT_MODE_IMMEDIATE_KHR ∧
    Application.ChooseSwapPresentMode
        [VkPresentModeKHR.VK_PRESENT_MODE_IMMEDIATE_KHR] =
      VkPresentModeKHR.VK_PRESENT_MODE_FIFO_KHR :=
  (choose_swap_present_mode_spec
      [VkPresentModeKHR.VK_PRESENT_MODE_IMMEDIATE_KHR]).2.1 (by decide)

/-- Claim C4 counterexample: on the mailbox-free list [IMMEDIATE],
SwapChain::ChooseSwapPresentMode returns IMMEDIATE, not FIFO as the claim
states for every mailbox-free list. -/
theorem choose_swap_present_mode_not_fifo_fallback :
    VkPresentModeKHR.VK_PRESENT_MODE_MAILBOX_KHR ∉
      [VkPresentModeKHR.VK_PRESENT_MODE_IMMEDIATE_KHR] ∧
    SwapChain.ChooseSwapPresentMode
        [VkPresentModeKHR.VK_PRESENT_MODE_IMMEDIATE_KHR] =
      some VkPresentModeKHR.VK_PRESENT_MODE_IMMEDIATE_KHR ∧
    SwapChain.ChooseSwapPresentMode
        [VkPresentModeKHR.VK_PRESENT_MODE_IMMEDIATE_KHR] ≠
      some VkPresentModeKHR.VK_PRESENT_MODE_FIFO_KHR := by
  decide

/-- Claim C5 (amended): Application::ChooseSwapSurfaceFormat prefers the
first entry with the 8-bit BGRA UNORM format and the sRGB non-linear color
space, while SwapChain::ChooseSwapSufaceFormat prefers the first entry
with the three-channel BGR sRGB format (no alpha) and that color space;
both fall back to the first listed format, and both return the sole entry
of a one-element list unchanged. -/
theorem choose_swap_surface_format_spec : ∀ fs : List VkSurfaceFormatKHR,
    ((∃ f ∈ fs, f.format = VkFormat.VK_FORMAT_B8G8R8A8_UNORM ∧
        f.colorSpace = VkColorSpaceKHR.VK_COLOR_SPACE_SRGB_NONLINEAR_KHR) →
      ∃ f, Application.ChooseSwapSurfaceFormat fs = some f ∧ f ∈ fs ∧
        f.format = VkFormat.VK_FORMAT_B8G8R8A8_UNORM ∧
        f.colorSpace = VkColorSpaceKHR.VK_COLOR_SPACE_SRGB_NONLINEAR_KHR) ∧
    ((∀ f ∈ fs, ¬(f.format = VkFormat.VK_FORMAT_B8G8R8A8_UNORM ∧
        f.colorSpace = VkColorSpaceKHR.VK_COLOR_SPACE_SRGB_NONLINEAR_KHR)) →
      Application.ChooseSwapSurfaceFormat fs = fs.head?) ∧
    ((∃ f ∈ fs, f.format = VkFormat.VK_FORMAT_B8G8R8_SRGB ∧
        f.colorSpace = VkColorSpaceKHR.VK_COLOR_SPACE_SRGB_NONLINEAR_KHR) →
      ∃ f, SwapChain.ChooseSwapSufaceFormat fs = some f ∧ f ∈ fs ∧
        f.format = VkFormat.VK_FORMAT_B8G8R8_SRGB ∧
        f.colorSpace = VkColorSpaceKHR.VK_COLOR_SPACE_SRGB_NONLINEAR_KHR) ∧
    ((∀ f ∈ fs, ¬(f.format = VkFormat.VK_FORMAT_B8G8R8_SRGB ∧
        f.colorSpace = VkColorSpaceKHR.VK_COLOR_SPACE_SRGB_NONLINEAR_KHR)) →
      SwapChain.ChooseSwapSufaceFormat fs = fs.head?) ∧
    (∀ f0 : VkSurfaceFormatKHR,
      Application.ChooseSwapSurfaceFormat [f0] = some f0 ∧
      SwapChain.ChooseSwapSufaceFormat [f0] = some f0) := by
  intro fs
  refine ⟨?_, ?_, ?_, ?_, ?_⟩
  · intro h
    have hs : (fs.find? (fun a =>
        a.format == VkFormat.VK_FORMAT_B8G8R8A8_UNORM &&
        a.colorSpace ==
          VkColorSpaceKHR.VK_COLOR_SPACE_SRGB_NONLINEAR_KHR)).isSome := by
      rw [List.find?_isSome]
      obtain ⟨f, hm, h1, h2⟩ := h
      exact ⟨f, hm, by simp [h1, h2]⟩
    obtain ⟨a, ha⟩ := Option.isSome_iff_exists.mp hs
    have hp := List.find?_some ha
    simp only [Bool.and_eq_true, beq_iff_eq] at hp
    refine ⟨a, ?_, List.mem_of_find?_eq_some ha, hp.1, hp.2⟩
    simp only [Application.ChooseSwapSurfaceFormat, ha]
  · intro h
    have hf : fs.find? (fun a =>
        a.format == VkFormat.VK_FORMAT_B8G8R8A8_UNORM &&
        a.colorSpace ==
          VkColorSpaceKHR.VK_COLOR_SPACE_SRGB_NONLINEAR_KHR) = none := by
      rw [List.find?_eq_none]
      intro x hx hb
      simp only [Bool.and_eq_true, beq_iff_eq] at hb
      exact h x hx hb
    simp only [Application.ChooseSwapSurfaceFormat, hf]
  · intro h
    have hs : (fs.find? (fun a =>
        a.format == VkFormat.VK_FORMAT_B8G8R8_SRGB &&
        a.colorSpace ==
          VkColorSpaceKHR.VK_COLOR_SPACE_SRGB_NONLINEAR_KHR)).isSome := by
      rw [List.find?_isSome]
      obtain ⟨f, hm, h1, h2⟩ := h
      exact ⟨f, hm, by simp [h1, h2]⟩
    obtain ⟨a, ha⟩ := Option.isSome_iff_exists.mp hs
    have hp := List.find?_some ha
    simp only [Bool.and_eq_true, beq_iff_eq] at hp
    refine ⟨a, ?_, List.mem_of_find?_eq_some ha, hp.1, hp.2⟩
    simp only [SwapChain.ChooseSwapSufaceFormat, ha]
  · intro h
    have hf : fs.find? (fun a =>
        a.format == VkFormat.VK_FORMAT_B8G8R8_SRGB &&
        a.colorSpace ==
          VkColorSpaceKHR.VK_COLOR_SPACE_SRGB_NONLINEAR_KHR) = none := by
      rw [List.find?_eq_none]
      intro x hx hb
      simp only [Bool.and_eq_true, beq_iff_eq] at hb
      exact h x hx hb
    simp only [SwapChain.ChooseSwapSufaceFormat, hf]
  · intro f0
    constructor
    · simp only [Application.ChooseSwapSurfaceFormat, List.find?_cons,
        List.find?_nil]
      cases hb : (f0.format == VkFormat.VK_FORMAT_B8G8R8A8_UNORM &&
          f0.colorSpace ==
            VkColorSpaceKHR.VK_COLOR_SPACE_SRGB_NONLINEAR_KHR) <;> simp
    · simp only [SwapChain.ChooseSwapSufaceFormat, List.find?_cons,
        List.find?_nil]
      cases hb : (f0.format == VkFormat.VK_FORMAT_B8G8R8_SRGB &&
          f0.colorSpace ==
            VkColorSpaceKHR.VK_COLOR_SPACE_SRGB_NONLINEAR_KHR) <;> simp

/-- Claim C5 witness: the amended theorem at the scenario input — a sole
BGRA8-UNORM entry with the sRGB non-linear color space is found by the
application chooser and returned unchanged by both choosers. -/
theorem choose_swap_surface_format_spec_witness :
    (∃ f, Application.ChooseSwapSurfaceFormat [fmtBGRA8_UNORM] = some f ∧
      f ∈ [fmtBGRA8_UNORM] ∧
      f.format = VkFormat.VK_FORMAT_B8G8R8A8_UNORM ∧
      f.colorSpace = VkColorSpaceKHR.VK_COLOR_SPACE_SRGB_NONLINEAR_KHR) ∧
    Application.ChooseSwapSurfaceFormat [fmtBGRA8_UNORM] =
      some fmtBGRA8_UNORM ∧
    SwapChain.ChooseSwapSufaceFormat [fmtBGRA8_UNORM] =
      some fmtBGRA8_UNORM :=
  ⟨(choose_swap_surface_format_spec [fmtBGRA8_UNORM]).1
      ⟨fmtBGRA8_UNORM, by decide, by decide, by decide⟩,
   (choose_swap_surface_format_spec [fmtBGRA8_UNORM]).2.2.2.2 fmtBGRA8_UNORM⟩

/-- Claim C5 counterexample: in the list [BGRA8-UNORM+sRGB, BGR8-SRGB+sRGB]
the first entry is an 8-bit-per-channel BGRA format paired with the sRGB
non-linear color space, yet SwapChain::ChooseSwapSufaceFormat skips it and
returns the second, three-channel BGR entry, because swap_chain.cc:221
compares against VK_FORMAT_B8G8R8_SRGB rather than any BGRA format. -/
theorem choose_swap_surface_format_skips_bgra :
    fmtBGRA8_UNORM.format = VkFormat.VK_FORMAT_B8G8R8A8_UNORM ∧
    fmtBGRA8_UNORM.colorSpace =
      VkColorSpaceKHR.VK_COLOR_SPACE_SRGB_NONLINEAR_KHR ∧
    SwapChain.ChooseSwapSufaceFormat [fmtBGRA8_UNORM, fmtBGR8_SRGB] =
      some fmtBGR8_SRGB ∧
    fmtBGR8_SRGB ≠ fmtBGRA8_UNORM := by
  decide

/-- std::clamp keeps a value inside [lo, hi] when lo ≤ hi. -/
theorem stdClamp_mem (v lo hi : Nat) (h : lo ≤ hi) :
    lo ≤ stdClamp v lo hi ∧ stdClamp v lo hi ≤ hi := by
  unfold stdClamp
  split_ifs <;> omega

/-- Claim C7: ChooseSwapExtent returns the surface current extent verbatim
whenever its width differs from the UINT32_MAX sentinel, for every
framebuffer size; with the sentinel it returns the framebuffer size
clamped per dimension into [minImageExtent, maxImageExtent], so each
returned dimension lies in that inclusive range; the Application and
SwapChain versions are the same function. -/
theorem choose_swap_extent_spec :
    ∀ (caps : VkSurfaceCapabilitiesKHR) (fbWidth fbHeight : Nat),
    (caps.currentExtent.width ≠ UINT32_MAX →
      SwapChain.ChooseSwapExtent caps fbWidth fbHeight = caps.currentExtent) ∧
    (caps.currentExtent.width = UINT32_MAX →
      SwapChain.ChooseSwapExtent caps fbWidth fbHeight =
        ⟨stdClamp fbWidth caps.minImageExtent.width caps.maxImageExtent.width,
         stdClamp fbHeight caps.minImageExtent.height
           caps.maxImageExtent.height⟩ ∧
      (caps.minImageExtent.width ≤ caps.maxImageExtent.width →
        caps.minImageExtent.width ≤
          (SwapChain.ChooseSwapExtent caps fbWidth fbHeight).width ∧
        (SwapChain.ChooseSwapExtent caps fbWidth fbHeight).width ≤
          caps.maxImageExtent.width) ∧
      (caps.minImageExtent.height ≤ caps.maxImageExtent.height →
        caps.minImageExtent.height ≤
          (SwapChain.ChooseSwapExtent caps fbWidth fbHeight).height ∧
        (SwapChain.ChooseSwapExtent caps fbWidth fbHeight).height ≤
          caps.maxImageExtent.height)) ∧
    Application.ChooseSwapExtent caps fbWidth fbHeight =
      SwapChain.ChooseSwapExtent caps fbWidth fbHeight := by
  intro caps fbWidth fbHeight
  refine ⟨?_, ?_, rfl⟩
  · intro h
    simp only [SwapChain.ChooseSwapExtent, if_pos h]
  · intro h
    have he : SwapChain.ChooseSwapExtent caps fbWidth fbHeight =
        ⟨stdClamp fbWidth caps.minImageExtent.width caps.maxImageExtent.width,
         stdClamp fbHeight caps.minImageExtent.height
           caps.maxImageExtent.height⟩ := by
      simp only [SwapChain.ChooseSwapExtent, h, ne_eq, not_true_eq_false,
        if_false]
    refine ⟨he, ?_, ?_⟩
    · intro hwh
      rw [he]
      exact stdClamp_mem fbWidth _ _ hwh
    · intro hwh
      rw [he]
      exact stdClamp_mem fbHeight _ _ hwh

/-- Claim C7 witness: a defined current extent of 800 x 600 is returned
verbatim even though the framebuffer reports 1, and under the sentinel the
framebuffer size 5000 x 0 is clamped into [1, 4096] per dimension. -/
theorem choose_swap_extent_spec_witness :
    SwapChain.ChooseSwapExtent sampleCapabilities 1 1 = ⟨800, 600⟩ ∧
    SwapChain.ChooseSwapExtent
      ⟨2, 8, ⟨UINT32_MAX, 600⟩, ⟨1, 1⟩, ⟨4096, 4096⟩⟩ 5000 0 =
      ⟨4096, 1⟩ :=
  ⟨(choose_swap_extent_spec sampleCapabilities 1 1).1 (by decide),
   ((choose_swap_extent_spec
      ⟨2, 8, ⟨UINT32_MAX, 600⟩, ⟨1, 1⟩, ⟨4096, 4096⟩⟩ 5000 0).2.1 rfl).1⟩

/-- Claim C8: without overflow of the uint32 increment, the requested
image count is minImageCount + 1, except that a nonzero maxImageCount caps
it: for a nonzero cap the request is min(maxImageCount, minImageCount + 1). -/
theorem swap_chain_image_count_spec : ∀ caps : VkSurfaceCapabilitiesKHR,
    caps.minImageCount + 1 < UINT32_MOD →
    (caps.maxImageCount = 0 →
      Application.SwapChainImageCount caps = caps.minImageCount + 1) ∧
    (0 < caps.maxImageCount →
      Application.SwapChainImageCount caps =
        min caps.maxImageCount (caps.minImageCount + 1)) := by
  intro caps h
  unfold Application.SwapChainImageCount
  rw [Nat.mod_eq_of_lt h]
  constructor
  · intro h0
    simp [h0]
  · intro hpos
    rcases Nat.lt_or_ge caps.maxImageCount (caps.minImageCount + 1) with
      hlt | hge
    · rw [if_pos, Nat.min_eq_left (Nat.le_of_lt hlt)]
      simp only [Bool.and_eq_true, decide_eq_true_eq]
      exact ⟨hpos, hlt⟩
    · rw [if_neg, Nat.min_eq_right hge]
      simp only [Bool.and_eq_true, decide_eq_true_eq, not_and]
      intro _
      omega

/-- Claim C8 witness: with minImageCount = 2 and maxImageCount = 8 the
request is 3; with minImageCount = 3 and the binding cap maxImageCount = 3
the request is 3 = min(3, 4). -/
theorem swap_chain_image_count_spec_witness :
    Application.SwapChainImageCount sampleCapabilities = 3 ∧
    Application.SwapChainImageCount cappedCapabilities =
      min 3 4 :=
  ⟨by
    have := (swap_chain_image_count_spec sampleCapabilities (by decide)).2
      (by decide)
    simpa using this,
   (swap_chain_image_count_spec cappedCapabilities (by decide)).2 (by decide)⟩

/-- Claim C9: after the construction sequence CreateSwapChain,
CreateImageViews, CreateFrameBuffers the three vectors have equal length,
with the view vector the image-wise map of view creation and the
framebuffer vector the view-wise map of framebuffer creation; and
RecreateSwapChain is exactly cleanup followed by that same sequence, so
every completed recreation reestablishes the invariant. -/
theorem swap_chain_vectors_aligned : ∀ (env : RenderEnv)
    (st : AppSwapChainState),
    (Application.CreateFrameBuffers env (Application.CreateImageViews env
        (Application.CreateSwapChain env st))).swap_chain_images.length =
      (Application.CreateFrameBuffers env (Application.CreateImageViews env
        (Application.CreateSwapChain env st))).swap_chain_image_views.length ∧
    (Application.CreateFrameBuffers env (Application.CreateImageViews env
        (Application.CreateSwapChain env st))).swap_chain_image_views.length =
      (Application.CreateFrameBuffers env (Application.CreateImageViews env
        (Application.CreateSwapChain env st))).swap_chain_framebuffers.length ∧
    (Application.CreateFrameBuffers env (Application.CreateImageViews env
        (Application.CreateSwapChain env st))).swap_chain_image_views =
      (Application.CreateFrameBuffers env (Application.CreateImageViews env
        (Application.CreateSwapChain env
          st))).swap_chain_images.map env.mkImageView ∧
    (Application.CreateFrameBuffers env (Application.CreateImageViews env
        (Application.CreateSwapChain env st))).swap_chain_framebuffers =
      (Application.CreateFrameBuffers env (Application.CreateImageViews env
        (Application.CreateSwapChain env
          st))).swap_chain_image_views.map env.mkFramebuffer ∧
    Application.RecreateSwapChain env st =
      Application.CreateFrameBuffers env (Application.CreateImageViews env
        (Application.CreateSwapChain env st)) := by
  intro env st
  refine ⟨?_, ?_, rfl, rfl, rfl⟩ <;>
    simp [Application.CreateFrameBuffers, Application.CreateImageViews,
      Application.CreateSwapChain, List.length_map]

/-- Claim C3 counterexample: a discrete GPU with max 2D image dimension
4096 that lacks only the geometry-shader feature scores 1, not 0, in both
scoring functions, and Application::PickPhysicalDevice selects it — the
claim says its score is forced to 0 and the device rejected. -/
theorem evaluate_device_no_geometry_not_rejected :
    gpuNoGeometry.geometryShader = false ∧
    Application.EvaluateDevice gpuNoGeometry = 1 ∧
    Application.EvaluateDevice gpuNoGeometry ≠ 0 ∧
    Device.RateDeviceSuitability gpuNoGeometry = 1 ∧
    Application.PickPhysicalDevice [gpuNoGeometry] =
      Except.ok gpuNoGeometry :=
  ⟨rfl, by decide, by decide, by decide, rfl⟩

/-- Claim C3 (amended): when the geometry-shader feature is absent both
scoring functions overwrite the accumulated score with 1 — not 0 —
regardless of device type and max 2D image dimension; the device is
therefore not rejected on that account, and EvaluateDevice still returns 0
exactly when the queue families are incomplete, the swapchain extension is
missing, or the swapchain support is inadequate. -/
theorem evaluate_device_no_geometry_scores_one (d : VkPhysicalDeviceInfo)
    (h : d.geometryShader = false) :
    Device.RateDeviceSuitability d = 1 ∧
    Application.EvaluateDevice d =
      (if (FindQueueFaimilies d.queue_families).IsCompleted &&
          Application.CheckExtensionSupport d.availableExtensions
            requiredDeviceExtensions &&
          Application.IsAdequate (QuerySwapChainSupport d)
       then 1 else 0) := by
  constructor
  · simp [Device.RateDeviceSuitability, h]
  · simp only [Application.EvaluateDevice, h, Bool.not_false, if_true]
    cases hq : (FindQueueFaimilies d.queue_families).IsCompleted <;>
      cases he : Application.CheckExtensionSupport d.availableExtensions
        requiredDeviceExtensions <;>
      cases ha : Application.IsAdequate (QuerySwapChainSupport d) <;>
      simp

/-- Claim C3 amended-theorem witness: evaluated on the concrete
geometry-shader-less device, whose checks all pass, giving score 1. -/
theorem evaluate_device_no_geometry_scores_one_witness :
    Device.RateDeviceSuitability gpuNoGeometry = 1 ∧
    Application.EvaluateDevice gpuNoGeometry =
      (if (FindQueueFaimilies gpuNoGeometry.queue_families).IsCompleted &&
          Application.CheckExtensionSupport gpuNoGeometry.availableExtensions
            requiredDeviceExtensions &&
          Application.IsAdequate (QuerySwapChainSupport gpuNoGeometry)
       then 1 else 0) :=
  evaluate_device_no_geometry_scores_one gpuNoGeometry rfl

/-- The queue-family loop never records a graphics family when no listed
family has queues and the graphics bit. -/
theorem findLoop_graphics_eq : ∀ (qs : List VkQueueFamilyProperties)
    (i : Nat) (acc : QueueFamilies),
    (∀ q ∈ qs, q.queueCount = 0 ∨ q.graphicsBit = false) →
    (findQueueFamiliesLoop i acc qs).graphics_family = acc.graphics_family := by
  intro qs
  induction qs with
  | nil => intro i acc h; rfl
  | cons q rest ih =>
    intro i acc h
    have hq : (decide (q.queueCount > 0) && q.graphicsBit) = false := by
      rcases h q (List.mem_cons_self q rest) with h0 | h0 <;> simp [h0]
    have hrest : ∀ q2 ∈ rest, q2.queueCount = 0 ∨ q2.graphicsBit = false :=
      fun q2 hm => h q2 (List.mem_cons_of_mem q hm)
    simp only [findQueueFamiliesLoop, hq, Bool.false_eq_true, if_false]
    split
    · split
      · rfl
      · rw [ih (i + 1) _ hrest]
    · split
      · rfl
      · rw [ih (i + 1) _ hrest]

/-- The queue-family loop never records a present family when no listed
family has queues and surface support. -/
theorem findLoop_present_eq : ∀ (qs : List VkQueueFamilyProperties)
    (i : Nat) (acc : QueueFamilies),
    (∀ q ∈ qs, q.queueCount = 0 ∨ q.presentSupport = false) →
    (findQueueFamiliesLoop i acc qs).present_family = acc.present_family := by
  intro qs
  induction qs with
  | nil => intro i acc h; rfl
  | cons q rest ih =>
    intro i acc h
    have hq : (decide (q.queueCount > 0) && q.presentSupport) = false := by
      rcases h q (List.mem_cons_self q rest) with h0 | h0 <;> simp [h0]
    have hrest : ∀ q2 ∈ rest, q2.queueCount = 0 ∨ q2.presentSupport = false :=
      fun q2 hm => h q2 (List.mem_cons_of_mem q hm)
    simp only [findQueueFamiliesLoop, hq, Bool.false_eq_true, if_false]
    split
    · split
      · rfl
      · rw [ih (i + 1) _ hrest]
    · split
      · rfl
      · rw [ih (i + 1) _ hrest]

/-- A device with no graphics-capable family or no present-capable family
yields an incomplete QueueFamilies result. -/
theorem findQueueFamilies_incomplete (qs : List VkQueueFamilyProperties)
    (h : (∀ q ∈ qs, q.queueCount = 0 ∨ q.graphicsBit = false) ∨
         (∀ q ∈ qs, q.queueCount = 0 ∨ q.presentSupport = false)) :
    (FindQueueFaimilies qs).IsCompleted = false ∧
    (FindQueueFaimilies qs).IsComplete = false := by
  rcases h with h | h
  · have hg := findLoop_graphics_eq qs 0 ⟨none, none⟩ h
    constructor <;>
      simp [QueueFamilies.IsCompleted, QueueFamilies.IsComplete,
        FindQueueFaimilies] at hg ⊢ <;>
      simp [hg]
  · have hp := findLoop_present_eq qs 0 ⟨none, none⟩ h
    constructor <;>
      simp [QueueFamilies.IsCompleted, QueueFamilies.IsComplete,
        FindQueueFaimilies] at hp ⊢ <;>
      simp [hp]

/-- Application::PickPhysicalDevice only returns a device of positive
score. -/
theorem app_pick_pos (ds : List VkPhysicalDeviceInfo)
    (d : VkPhysicalDeviceInfo)
    (h : Application.PickPhysicalDevice ds = Except.ok d) :
    0 < Application.EvaluateDevice d := by
  cases ds with
  | nil => exact absurd h (by simp [Application.PickPhysicalDevice])
  | cons d0 rest =>
    simp only [Application.PickPhysicalDevice] at h
    split at h
    · cases h
      assumption
    · exact Except.noConfusion h

/-- The scan of Device::PickPhysicalDevice only returns a device that
IsDeviceSuitable accepted. -/
theorem device_pickLoop_ok (exts : List String) :
    ∀ (ds : List VkPhysicalDeviceInfo) (d : VkPhysicalDeviceInfo),
    Device.pickLoop exts ds = Except.ok (some d) →
    Device.IsDeviceSuitable exts d = Except.ok true := by
  intro ds
  induction ds with
  | nil => intro d h; exact absurd h (by simp [Device.pickLoop])
  | cons d0 rest ih =>
    intro d h
    simp only [Device.pickLoop] at h
    cases hs : Device.IsDeviceSuitable exts d0 with
    | error e => rw [hs] at h; exact Except.noConfusion h
    | ok b =>
      rw [hs] at h
      cases b with
      | true =>
        simp only [Except.ok.injEq, Option.some.injEq] at h
        rw [← h]
        exact hs
      | false => exact ih d h

/-- Device::PickPhysicalDevice only returns a device that IsDeviceSuitable
accepted. -/
theorem device_pick_ok (exts : List String) (ds : List VkPhysicalDeviceInfo)
    (d : VkPhysicalDeviceInfo)
    (h : Device.PickPhysicalDevice exts ds = Except.ok d) :
    Device.IsDeviceSuitable exts d = Except.ok true := by
  cases ds with
  | nil => exact absurd h (by simp [Device.PickPhysicalDevice])
  | cons d0 rest =>
    simp only [Device.PickPhysicalDevice] at h
    cases hl : Device.pickLoop exts (d0 :: rest) with
    | error e => rw [hl] at h; exact Except.noConfusion h
    | ok o =>
      rw [hl] at h
      cases o with
      | none => exact Except.noConfusion h
      | some d2 =>
        simp only [Except.ok.injEq] at h
        rw [← h]
        exact device_pickLoop_ok exts (d0 :: rest) d2 hl

/-- Acceptance by Device::IsDeviceSuitable implies complete queue families
and adequate swapchain support. -/
theorem suitable_ok_true (exts : List String) (d : VkPhysicalDeviceInfo)
    (h : Device.IsDeviceSuitable exts d = Except.ok true) :
    (FindQueueFaimilies d.queue_families).IsComplete = true ∧
    Device.IsAdequate (QuerySwapChainSupport d) = true := by
  unfold Device.IsDeviceSuitable at h
  cases hc : Device.CheckDeviceExtensionSupport exts d with
  | error e => rw [hc] at h; exact Except.noConfusion h
  | ok b =>
    rw [hc] at h
    simp only [Except.map, Except.ok.injEq, Bool.and_eq_true] at h
    exact ⟨h.1.1, h.2⟩

/-- A non-empty format list makes SwapChain::ChooseSwapSufaceFormat total. -/
theorem chooseSufaceFormat_isSome (fs : List VkSurfaceFormatKHR)
    (h : fs ≠ []) : (SwapChain.ChooseSwapSufaceFormat fs).isSome = true := by
  unfold SwapChain.ChooseSwapSufaceFormat
  cases hf : fs.find? (fun a =>
      a.format == VkFormat.VK_FORMAT_B8G8R8_SRGB &&
      a.colorSpace == VkColorSpaceKHR.VK_COLOR_SPACE_SRGB_NONLINEAR_KHR) with
  | some a => simp
  | none =>
    cases fs with
    | nil => exact absurd rfl h
    | cons x xs => simp

/-- A non-empty mode list makes SwapChain::ChooseSwapPresentMode total. -/
theorem choosePresentMode_isSome (ms : List VkPresentModeKHR)
    (h : ms ≠ []) : (SwapChain.ChooseSwapPresentMode ms).isSome = true := by
  unfold SwapChain.ChooseSwapPresentMode
  cases hf : ms.find? (fun a =>
      a == VkPresentModeKHR.VK_PRESENT_MODE_MAILBOX_KHR) with
  | some a => simp
  | none =>
    cases ms with
    | nil => exact absurd rfl h
    | cons x xs => simp

/-- Claim C6: a device whose families offer no graphics capability, or no
presentation support, scores 0 in Application::EvaluateDevice, is never
the device Application::PickPhysicalDevice returns, is refused by
Device::IsDeviceSuitable, and is never the device Device::PickPhysicalDevice
returns — regardless of its other merits. -/
theorem no_complete_queue_pair_rejected (d : VkPhysicalDeviceInfo)
    (h : (∀ q ∈ d.queue_families, q.queueCount = 0 ∨ q.graphicsBit = false) ∨
         (∀ q ∈ d.queue_families, q.queueCount = 0 ∨ q.presentSupport = false)) :
    Application.EvaluateDevice d = 0 ∧
    (∀ ds, Application.PickPhysicalDevice ds ≠ Except.ok d) ∧
    (∀ exts, Device.IsDeviceSuitable exts d ≠ Except.ok true) ∧
    (∀ exts ds, Device.PickPhysicalDevice exts ds ≠ Except.ok d) := by
  obtain ⟨hc, hc2⟩ := findQueueFamilies_incomplete d.queue_families h
  have heval : Application.EvaluateDevice d = 0 := by
    simp only [Application.EvaluateDevice, hc, Bool.not_false, if_true]
    cases he : Application.CheckExtensionSupport d.availableExtensions
        requiredDeviceExtensions <;>
      cases ha : Application.IsAdequate (QuerySwapChainSupport d) <;>
      simp
  refine ⟨heval, ?_, ?_, ?_⟩
  · intro ds hp
    have hpos := app_pick_pos ds d hp
    rw [heval] at hpos
    exact lt_irrefl 0 hpos
  · intro exts hs
    have hcm := (suitable_ok_true exts d hs).1
    rw [hc2] at hcm
    exact Bool.noConfusion hcm
  · intro exts ds hp
    have hcm := (suitable_ok_true exts d (device_pick_ok exts ds d hp)).1
    rw [hc2] at hcm
    exact Bool.noConfusion hcm

/-- Claim C6 witness: the concrete device whose only family lacks the
graphics bit scores 0 and is not returned by either selection. -/
theorem no_complete_queue_pair_rejected_witness :
    Application.EvaluateDevice gpuNoGraphicsQueue = 0 ∧
    Application.PickPhysicalDevice [gpuNoGraphicsQueue] ≠
      Except.ok gpuNoGraphicsQueue ∧
    Device.PickPhysicalDevice requiredDeviceExtensions [gpuNoGraphicsQueue] ≠
      Except.ok gpuNoGraphicsQueue :=
  have h := no_complete_queue_pair_rejected gpuNoGraphicsQueue
    (Or.inl (by decide))
  ⟨h.1, h.2.1 [gpuNoGraphicsQueue],
   h.2.2.2 requiredDeviceExtensions [gpuNoGraphicsQueue]⟩

/-- Claim C10: both SwapChain choosers are partial — on the empty list the
fallback indexing of element 0 has no value (none) — but every device
Device::PickPhysicalDevice returns passed IsAdequate, whose non-empty
format and present-mode lists make both choosers return a value. -/
theorem selected_device_choosers_safe :
    (SwapChain.ChooseSwapSufaceFormat [] = none ∧
     SwapChain.ChooseSwapPresentMode [] = none) ∧
    (∀ exts ds d, Device.PickPhysicalDevice exts ds = Except.ok d →
      Device.IsAdequate (QuerySwapChainSupport d) = true ∧
      (SwapChain.ChooseSwapSufaceFormat d.formats).isSome = true ∧
      (SwapChain.ChooseSwapPresentMode d.present_modes).isSome = true) := by
  refine ⟨⟨rfl, rfl⟩, ?_⟩
  intro exts ds d hp
  have hadq := (suitable_ok_true exts d (device_pick_ok exts ds d hp)).2
  have hne : d.formats ≠ [] ∧ d.present_modes ≠ [] := by
    unfold Device.IsAdequate QuerySwapChainSupport at hadq
    simp only [Bool.and_eq_true, Bool.not_eq_eq_eq_not, Bool.not_true] at hadq
    constructor
    · cases hfs : d.formats
      · rw [hfs] at hadq; simp at hadq
      · simp
    · cases hms : d.present_modes
      · rw [hms] at hadq; simp at hadq
      · simp
  exact ⟨hadq, chooseSufaceFormat_isSome d.formats hne.1,
    choosePresentMode_isSome d.present_modes hne.2⟩

/-- Claim C10 witness: the suitable sample device is selected and both
choosers return a value on its lists. -/
theorem selected_device_choosers_safe_witness :
    Device.IsAdequate (QuerySwapChainSupport gpuSuitable) = true ∧
    (SwapChain.ChooseSwapSufaceFormat gpuSuitable.formats).isSome = true ∧
    (SwapChain.ChooseSwapPresentMode gpuSuitable.present_modes).isSome = true :=
  selected_device_choosers_safe.2 requiredDeviceExtensions [gpuSuitable]
    gpuSuitable rfl

/-- The synchronization invariant holds at program start. -/
theorem syncInv_init : FrameSync.SyncInv FrameSync.initialSyncState := by
  unfold FrameSync.SyncInv FrameSync.initialSyncState
  refine ⟨Nat.le_refl 0, by simp, ?_⟩
  intro i hi
  constructor
  · intro _ j hj1 hj2
    exact absurd hj2 (Nat.not_lt_zero j)
  · intro _
    rfl

/-- The synchronization invariant is preserved by every step of the
CPU/GPU interleaving. -/
theorem syncInv_step {s t : FrameSync.SyncState} (hs : FrameSync.SyncInv s)
    (hstep : FrameSync.SyncStep s t) : FrameSync.SyncInv t := by
  have hM : MAX_FRAMES_IN_FLIGHT = 2 := rfl
  obtain ⟨h1, h2, h3⟩ := hs
  cases hstep with
  | gpuComplete hlt =>
    refine ⟨?_, ?_, ?_⟩
    · show s.completed + 1 ≤ s.submitted
      omega
    · show s.submitted ≤ s.completed + 1 + MAX_FRAMES_IN_FLIGHT
      omega
    · intro i hi
      show FrameSync.setFence s.fenceSignaled
          (s.completed % MAX_FRAMES_IN_FLIGHT) true i = true ↔
        ∀ j, s.completed + 1 ≤ j → j < s.submitted →
          j % MAX_FRAMES_IN_FLIGHT ≠ i
      by_cases hie : s.completed % MAX_FRAMES_IN_FLIGHT = i
      · have hfv : FrameSync.setFence s.fenceSignaled
            (s.completed % MAX_FRAMES_IN_FLIGHT) true i = true := by
          simp [FrameSync.setFence, hie.symm]
        rw [hfv]
        constructor
        · intro _ j hj1 hj2 hmod
          rw [← hie] at hmod
          rw [hM] at h2 hmod
          omega
        · intro _
          rfl
      · have hfv : FrameSync.setFence s.fenceSignaled
            (s.completed % MAX_FRAMES_IN_FLIGHT) true i = s.fenceSignaled i := by
          simp only [FrameSync.setFence]
          rw [if_neg]
          intro he
          exact hie he.symm
        rw [hfv]
        constructor
        · intro hf j hj1 hj2
          exact (h3 i hi).mp hf j (by omega) hj2
        · intro hall
          apply (h3 i hi).mpr
          intro j hj1 hj2
          by_cases hj : j = s.completed
          · rw [hj]
            exact hie
          · exact hall j (by omega) hj2
  | cpuFrame hsig =>
    have hmlt : s.submitted % MAX_FRAMES_IN_FLIGHT < MAX_FRAMES_IN_FLIGHT := by
      rw [hM]
      omega
    have hchar := (h3 (s.submitted % MAX_FRAMES_IN_FLIGHT) hmlt).mp hsig
    have hb : s.submitted < s.completed + MAX_FRAMES_IN_FLIGHT := by
      by_contra hcon
      push_neg at hcon
      rw [hM] at hcon
      refine hchar (s.submitted - MAX_FRAMES_IN_FLIGHT) ?_ ?_ ?_
      · rw [hM]
        omega
      · rw [hM]
        omega
      · rw [hM]
        omega
    refine ⟨?_, ?_, ?_⟩
    · show s.completed ≤ s.submitted + 1
      omega
    · show s.submitted + 1 ≤ s.completed + MAX_FRAMES_IN_FLIGHT
      omega
    · intro i hi
      show FrameSync.setFence s.fenceSignaled
          (s.submitted % MAX_FRAMES_IN_FLIGHT) false i = true ↔
        ∀ j, s.completed ≤ j → j < s.submitted + 1 →
          j % MAX_FRAMES_IN_FLIGHT ≠ i
      by_cases hie : s.submitted % MAX_FRAMES_IN_FLIGHT = i
      · have hfv : FrameSync.setFence s.fenceSignaled
            (s.submitted % MAX_FRAMES_IN_FLIGHT) false i = false := by
          simp [FrameSync.setFence, hie.symm]
        rw [hfv]
        constructor
        · intro hff
          exact Bool.noConfusion hff
        · intro hall
          exact absurd hie (hall s.submitted h1 (Nat.lt_succ_self _))
      · have hfv : FrameSync.setFence s.fenceSignaled
            (s.submitted % MAX_FRAMES_IN_FLIGHT) false i = s.fenceSignaled i := by
          simp only [FrameSync.setFence]
          rw [if_neg]
          intro he
          exact hie he.symm
        rw [hfv]
        constructor
        · intro hf j hj1 hj2
          rcases Nat.lt_or_ge j s.submitted with hj | hj
          · exact (h3 i hi).mp hf j hj1 hj
          · have hje : j = s.submitted := by omega
            rw [hje]
            exact hie
        · intro hall
          exact (h3 i hi).mpr (fun j hj1 hj2 => hall j hj1 (by omega))

/-- Every reachable synchronization state satisfies the invariant. -/
theorem syncInv_reachable {s : FrameSync.SyncState}
    (h : FrameSync.SyncReachable s) : FrameSync.SyncInv s := by
  induction h with
  | init => exact syncInv_init
  | step _ hstep ih => exact syncInv_step ih hstep

/-- Claim C1: in every reachable state of the frame loop interleaved with
the GPU, the CPU is at most MAX_FRAMES_IN_FLIGHT submissions ahead of the
GPU, and whenever the fence wait that guards re-recording the current
slot returns (the fence of slot submitted % MAX_FRAMES_IN_FLIGHT is
signaled) with at least MAX_FRAMES_IN_FLIGHT frames already submitted,
the previous submission of that same slot — frame
submitted - MAX_FRAMES_IN_FLIGHT — has completed on the GPU. -/
theorem frame_loop_bounded_by_fences (s : FrameSync.SyncState)
    (h : FrameSync.SyncReachable s) :
    s.submitted ≤ s.completed + MAX_FRAMES_IN_FLIGHT ∧
    (MAX_FRAMES_IN_FLIGHT ≤ s.submitted →
      s.fenceSignaled (s.submitted % MAX_FRAMES_IN_FLIGHT) = true →
      s.submitted - MAX_FRAMES_IN_FLIGHT < s.completed) := by
  have hM : MAX_FRAMES_IN_FLIGHT = 2 := rfl
  obtain ⟨h1, h2, h3⟩ := syncInv_reachable h
  refine ⟨h2, ?_⟩
  intro hN hsig
  by_contra hcon
  push_neg at hcon
  have hmlt : s.submitted % MAX_FRAMES_IN_FLIGHT < MAX_FRAMES_IN_FLIGHT :=
    Nat.mod_lt _ (by omega)
  have hz := (h3 (s.submitted % MAX_FRAMES_IN_FLIGHT) hmlt).mp hsig
    (s.submitted - MAX_FRAMES_IN_FLIGHT) (by omega) (by omega)
  apply hz
  rw [hM]
  rw [hM] at hN
  omega

/-- Claim C1 witness: the theorem applied to the initial state, reachable
by construction, with both fences created signaled. -/
theorem frame_loop_bounded_by_fences_witness :
    FrameSync.initialSyncState.submitted ≤
      FrameSync.initialSyncState.completed + MAX_FRAMES_IN_FLIGHT ∧
    (MAX_FRAMES_IN_FLIGHT ≤ FrameSync.initialSyncState.submitted →
      FrameSync.initialSyncState.fenceSignaled
        (FrameSync.initialSyncState.submitted % MAX_FRAMES_IN_FLIGHT) =
        true →
      FrameSync.initialSyncState.submitted - MAX_FRAMES_IN_FLIGHT <
        FrameSync.initialSyncState.completed) :=
  frame_loop_bounded_by_fences FrameSync.initialSyncState
    FrameSync.SyncReachable.init

/-- Claim C2: when acquire reports VK_ERROR_OUT_OF_DATE_KHR, DrawFrame
performs exactly the fence wait, the acquire and the swapchain recreation
and returns with the iteration aborted: the fences are untouched (the
current slot fence stays as the wait left it, signaled), no command
buffer is reset or re-recorded, nothing is submitted, and current_frame
does not advance; moreover, on every path, the fence reset happens only
when acquire returned success or suboptimal, and then the command buffer
of the same slot is re-recorded and submitted afterwards. -/
theorem draw_frame_out_of_date_aborts :
    ∀ (env : Application.DrawEnv) (st : Application.DrawState),
    (env.acquireResult = VkResult.VK_ERROR_OUT_OF_DATE_KHR →
      Application.DrawFrame env st =
        ([Application.FrameAct.waitFence st.current_frame,
          Application.FrameAct.acquireNextImage st.current_frame,
          Application.FrameAct.recreateSwapChain],
         Except.ok { st with recreations := st.recreations + 1 })) ∧
    (∀ i, Application.FrameAct.resetFence i ∈ (Application.DrawFrame env st).1 →
      (env.acquireResult = VkResult.VK_SUCCESS ∨
       env.acquireResult = VkResult.VK_SUBOPTIMAL_KHR) ∧
      Application.FrameAct.recordCommandBuffer i env.imageIndex ∈
        (Application.DrawFrame env st).1 ∧
      Application.FrameAct.queueSubmit i ∈ (Application.DrawFrame env st).1) := by
  intro env st
  obtain ⟨ar, ii, sr, pr⟩ := env
  obtain ⟨cf, fences, resized, recs⟩ := st
  constructor
  · intro h
    cases h
    rfl
  · intro i hm
    cases ar <;> cases sr <;> cases pr <;> cases resized <;>
      simp [Application.DrawFrame] at hm ⊢ <;> simp [hm]

/-- Claim C2 witness: with an out-of-date acquire result on a fresh state,
DrawFrame performs wait, acquire, recreate and returns the state with
both fences still signaled, slot 0 still current and one recreation
recorded. -/
theorem draw_frame_out_of_date_aborts_witness :
    Application.DrawFrame Application.outOfDateEnv Application.sampleDrawState =
      ([Application.FrameAct.waitFence 0,
        Application.FrameAct.acquireNextImage 0,
        Application.FrameAct.recreateSwapChain],
       Except.ok ⟨0, [true, true], false, 1⟩) :=
  (draw_frame_out_of_date_aborts Application.outOfDateEnv
    Application.sampleDrawState).1 rfl

end Playground
